import Mathlib

/-!
Verification of `src/train.py` from the tissueMAP repository.

The file shallowly embeds the pure data flow of `train()` and
`get_run_name()` into Lean.  Ambient facts the script reads from its
environment (CUDA availability, processor count, the datasets built by
`HistoCRCDataset`, the report strings produced by `validate` /
`validate_binarized`, the current wall-clock time) are passed in
explicitly through a `TrainEnv` record; everything computed from them
follows the Python source line by line.
-/

namespace TissueMAP

/-- Python `str(b)` on a boolean: `"True"` or `"False"`. -/
def pyStr (b : Bool) : String :=
  if b then "True" else "False"

/-- Index of the first occurrence of `c` in a character list, if any. -/
def strFindChar (c : Char) : List Char → Option Nat
  | [] => none
  | x :: xs => if x = c then some 0 else (strFindChar c xs).map Nat.succ

/-- Python `s.find(c)` for a single-character pattern: index of the first
occurrence, or `-1` when there is none. -/
def pyFind (s : String) (c : Char) : Int :=
  match strFindChar c s.data with
  | some i => (i : Int)
  | none => -1

/-- `backbone[backbone.find("/") + 1:]` from `get_run_name`
(src/train.py line 124): the slice of `backbone` starting one past the
first `'/'` (the whole string when there is no `'/'`, since
`find` returns `-1` and the slice starts at index `0`). -/
def backbone_name (backbone : String) : String :=
  ⟨backbone.data.drop (pyFind backbone '/' + 1).toNat⟩

/-- A wall-clock instant at millisecond resolution, the data
`datetime.now()` returns as far as `isoformat(timespec="milliseconds")`
renders it. -/
@[ext]
structure DateTime where
  year : Nat
  month : Nat
  day : Nat
  hour : Nat
  minute : Nat
  second : Nat
  millisecond : Nat
deriving DecidableEq, Repr

/-- Field ranges of a real `datetime` value (year is four digits). -/
def DateTime.Valid (t : DateTime) : Prop :=
  t.year < 10000 ∧ 1 ≤ t.month ∧ t.month ≤ 12 ∧ 1 ≤ t.day ∧ t.day ≤ 31 ∧
    t.hour < 24 ∧ t.minute < 60 ∧ t.second < 60 ∧ t.millisecond < 1000

instance (t : DateTime) : Decidable t.Valid := by
  unfold DateTime.Valid
  exact inferInstance

/-- `datetime.isoformat(timespec="milliseconds")`:
`YYYY-MM-DDTHH:MM:SS.mmm`, every numeric field zero-padded to fixed
width.  For fields within `DateTime.Valid` bounds this digit-by-digit
rendering is exactly the zero-padded decimal form Python prints. -/
def DateTime.isoformat (t : DateTime) : String :=
  ⟨[Nat.digitChar (t.year / 1000 % 10), Nat.digitChar (t.year / 100 % 10),
    Nat.digitChar (t.year / 10 % 10), Nat.digitChar (t.year % 10), '-',
    Nat.digitChar (t.month / 10 % 10), Nat.digitChar (t.month % 10), '-',
    Nat.digitChar (t.day / 10 % 10), Nat.digitChar (t.day % 10), 'T',
    Nat.digitChar (t.hour / 10 % 10), Nat.digitChar (t.hour % 10), ':',
    Nat.digitChar (t.minute / 10 % 10), Nat.digitChar (t.minute % 10), ':',
    Nat.digitChar (t.second / 10 % 10), Nat.digitChar (t.second % 10), '.',
    Nat.digitChar (t.millisecond / 100 % 10),
    Nat.digitChar (t.millisecond / 10 % 10),
    Nat.digitChar (t.millisecond % 10)]⟩

/-- `get_run_name(backbone, is_binary)` (src/train.py lines 121-126),
with the instant `datetime.now()` observed passed in as `now`:
`f"{backbone_name}_binary={str(is_binary)}_{time}"`. -/
def get_run_name (backbone : String) (is_binary : Bool) (now : DateTime) : String :=
  backbone_name backbone ++ "_binary=" ++ pyStr is_binary ++ "_" ++ now.isoformat

/-- The spec's words for the backbone segment: the substring of the
backbone after the LAST `'/'` separator. -/
def afterLastSlash (s : String) : String :=
  ⟨((s.data.reverse.takeWhile (fun x => x ≠ '/')).reverse)⟩

/-- The substring of `s` after the first `'/'` (empty-prefix-free
formulation via `dropWhile`), used to state the amended form of the
backbone-segment claim. -/
def afterFirstSlash (s : String) : String :=
  ⟨(s.data.dropWhile (fun x => x ≠ '/')).drop 1⟩

/-- A filesystem modelled as the set (as a list) of existing
directories, each directory a list of path segments from the root. -/
abbrev FS : Type := List (List String)

/-- `Path.mkdir(parents=True, exist_ok=True)` (src/train.py line 28),
per the pathlib documentation: create the directory and any missing
ancestors, succeeding silently when the directory already exists.  The
existing tree is kept and exactly the missing prefixes of the target
path are added. -/
def mkdir_parents (fs : FS) (p : List String) : FS :=
  fs ++ p.inits.filter (fun q => decide (q ∉ fs))

/-- Split a path string into its segments, dropping empty pieces
(so `"models/"` becomes `["models"]`), modelling `Path`. -/
def pathSegs (s : String) : List String :=
  (s.split (fun c => c = '/')).filter (fun q => q ≠ "")

/-- PyTorch `DataLoader(...)` construction arguments.  Omitted keyword
arguments take the PyTorch defaults `shuffle=False`, `num_workers=0`,
`pin_memory=False`, `drop_last=False`. -/
structure DataLoaderArgs where
  batch_size : Nat
  shuffle : Bool
  num_workers : Nat
  pin_memory : Bool
  drop_last : Bool
deriving DecidableEq, Repr

/-- `EarlyStoppingCallback(...)` construction arguments. -/
structure EarlyStoppingArgs where
  monitor : String
  min_delta : ℚ
  patience : Nat
deriving DecidableEq, Repr

/-- The fastai callbacks `train` passes to `fit_one_cycle`:
`EarlyStoppingCallback` with its arguments, and `CSVLogger()` (which
logs metrics once per epoch to a CSV file). -/
inductive Callback where
  | earlyStopping (args : EarlyStoppingArgs)
  | csvLogger
deriving DecidableEq, Repr

/-- The `learner.fit_one_cycle(...)` call (src/train.py line 100): a
one-cycle schedule with the given epoch count, peak learning rate and
callback list. -/
structure FitOneCycleCall where
  n_epoch : Nat
  lr_max : ℚ
  cbs : List Callback
deriving DecidableEq, Repr

/-- The observable state of a `HistoCRCDataset` that `train` reads:
its reported class count and the arguments it was built from.  The
class's own code lives in `data.py`; `train` only constructs it and
reads `n_classes`. -/
structure DatasetState where
  dir : String
  reduce_to_binary : Bool
  n_classes : Nat
deriving DecidableEq, Repr

/-- Everything `train` observes from its environment: CUDA
availability, `os.cpu_count()`, the filesystem, the datasets
`HistoCRCDataset(dir, reduce_to_binary=b)` yields, the instant
`datetime.now()` returns, and the report strings `validate` and
`validate_binarized` produce for the trained model. -/
structure TrainEnv where
  cuda_available : Bool
  cpu_count : Nat
  fs : FS
  histoDataset : String → Bool → DatasetState
  now : DateTime
  validate_report : String
  validate_binarized_report : String

/-- The datasets the environment yields are faithful: they record the
construction arguments `train` passes. -/
def TrainEnv.WellFormed (env : TrainEnv) : Prop :=
  ∀ dir b, (env.histoDataset dir b).dir = dir ∧
    (env.histoDataset dir b).reduce_to_binary = b

/-- The pure data flow of one run of `train(backbone, train_dir,
valid_dir, save_dir, batch_size, binary)` (src/train.py lines 18-119):
every field is computed exactly as the corresponding source line
computes it. -/
structure TrainRun where
  run_name : String
  save_path : List String
  fs_after : FS
  use_gpu : Bool
  device : String
  matmul_float32_mode : Option String
  train_ds : DatasetState
  valid_ds : DatasetState
  train_dl : DataLoaderArgs
  valid_dl : DataLoaderArgs
  model_num_classes : Nat
  fit : FitOneCycleCall
  report_txt : String

/-- One run of `train` as a record of its pure data flow:
* `run_name = get_run_name(backbone, binary)` (line 26);
* `model_save_path = Path(save_dir) / Path(run_name)`, then
  `mkdir(parents=True, exist_ok=True)` (lines 27-28);
* `use_gpu = torch.cuda.is_available()`, `device` is `"cuda"` or
  `"cpu"`, and float32 matmul precision is set to `"high"` exactly when
  `use_gpu` (lines 30-33);
* the datasets are built with `reduce_to_binary=binary` (lines 43-48);
* the loaders' keyword arguments follow lines 49-63, with PyTorch
  defaults for omitted ones;
* the class count handed to `load_model` is `train_ds.n_classes`
  (line 67);
* the fit call is `fit_one_cycle(n_epoch=4, lr_max=1e-4, cbs=[...])`
  with early stopping on `valid_loss` (`min_delta=0.01`, `patience=4`)
  and a `CSVLogger()` (lines 94-100);
* `report.txt` is written with the `validate` report and, when
  `binary` is false, appended with `5*"\n" + "Binarized:"` and the
  `validate_binarized` report (lines 107-116). -/
def trainRun (env : TrainEnv) (backbone train_dir valid_dir save_dir : String)
    (batch_size : Nat) (binary : Bool) : TrainRun :=
  let run_name := get_run_name backbone binary env.now
  let save_path := pathSegs save_dir ++ pathSegs run_name
  let use_gpu := env.cuda_available
  let train_ds := env.histoDataset train_dir binary
  let valid_ds := env.histoDataset valid_dir binary
  { run_name := run_name
    save_path := save_path
    fs_after := mkdir_parents env.fs save_path
    use_gpu := use_gpu
    device := if use_gpu then "cuda" else "cpu"
    matmul_float32_mode := if use_gpu then some "high" else none
    train_ds := train_ds
    valid_ds := valid_ds
    train_dl :=
      { batch_size := batch_size
        shuffle := true
        num_workers := env.cpu_count
        pin_memory := true
        drop_last := true }
    valid_dl :=
      { batch_size := batch_size
        shuffle := false
        num_workers := env.cpu_count
        pin_memory := true
        drop_last := false }
    model_num_classes := train_ds.n_classes
    fit :=
      { n_epoch := 4
        lr_max := 1 / 10000
        cbs := [Callback.earlyStopping
                  { monitor := "valid_loss", min_delta := 1 / 100, patience := 4 },
                Callback.csvLogger] }
    report_txt :=
      if binary then env.validate_report
      else env.validate_report ++ "\n\n\n\n\n" ++ "Binarized:" ++
        env.validate_binarized_report }

/-! ## Helper lemmas -/

theorem strFindChar_eq_none {c : Char} {l : List Char} (h : c ∉ l) :
    strFindChar c l = none := by
  induction l with
  | nil => rfl
  | cons x xs ih =>
    simp only [List.mem_cons, not_or] at h
    simp [strFindChar, Ne.symm h.1, ih h.2]

theorem strFindChar_isSome {c : Char} {l : List Char} (h : c ∈ l) :
    ∃ i, strFindChar c l = some i := by
  induction l with
  | nil => cases h
  | cons x xs ih =>
    by_cases hx : x = c
    · exact ⟨0, by simp [strFindChar, hx]⟩
    · obtain ⟨i, hi⟩ := ih (by
        rcases List.mem_cons.mp h with h1 | h2
        · exact absurd h1.symm hx
        · exact h2)
      exact ⟨i + 1, by simp [strFindChar, hx, hi]⟩

theorem strFindChar_drop {c : Char} {l : List Char} {i : Nat}
    (h : strFindChar c l = some i) :
    l.drop (i + 1) = (l.dropWhile (fun x => x ≠ c)).drop 1 := by
  induction l generalizing i with
  | nil => cases h
  | cons x xs ih =>
    by_cases hx : x = c
    · simp only [strFindChar, if_pos hx] at h
      cases h
      simp [List.dropWhile_cons, hx]
    · simp only [strFindChar, if_neg hx] at h
      cases hj : strFindChar c xs with
      | none => simp [hj] at h
      | some j =>
        simp only [hj, Option.map_some] at h
        cases h
        simpa [List.dropWhile_cons, hx] using ih hj

theorem string_mk_data (s : String) : String.mk s.data = s := rfl

/-- `Nat.digitChar` is injective below 10. -/
theorem digitChar_inj {a b : Nat} (ha : a < 10) (hb : b < 10)
    (h : Nat.digitChar a = Nat.digitChar b) : a = b := by
  interval_cases a <;> interval_cases b <;> revert h <;> decide

/-- On valid instants, millisecond ISO-8601 rendering is injective. -/
theorem isoformat_inj {t1 t2 : DateTime} (h1 : t1.Valid) (h2 : t2.Valid)
    (h : t1.isoformat = t2.isoformat) : t1 = t2 := by
  obtain ⟨hy1, _, hmo1, _, hd1, hh1, hmi1, hs1, hms1⟩ := h1
  obtain ⟨hy2, _, hmo2, _, hd2, hh2, hmi2, hs2, hms2⟩ := h2
  have hten : (0 : Nat) < 10 := by norm_num
  rw [DateTime.isoformat, DateTime.isoformat, String.ext_iff] at h
  simp only [List.cons.injEq, and_true] at h
  obtain ⟨e1, e2, e3, e4, _, e5, e6, _, e7, e8, _, e9, e10, _, e11, e12, _,
    e13, e14, _, e15, e16, e17⟩ := h
  have q1 := digitChar_inj (Nat.mod_lt _ hten) (Nat.mod_lt _ hten) e1
  have q2 := digitChar_inj (Nat.mod_lt _ hten) (Nat.mod_lt _ hten) e2
  have q3 := digitChar_inj (Nat.mod_lt _ hten) (Nat.mod_lt _ hten) e3
  have q4 := digitChar_inj (Nat.mod_lt _ hten) (Nat.mod_lt _ hten) e4
  have q5 := digitChar_inj (Nat.mod_lt _ hten) (Nat.mod_lt _ hten) e5
  have q6 := digitChar_inj (Nat.mod_lt _ hten) (Nat.mod_lt _ hten) e6
  have q7 := digitChar_inj (Nat.mod_lt _ hten) (Nat.mod_lt _ hten) e7
  have q8 := digitChar_inj (Nat.mod_lt _ hten) (Nat.mod_lt _ hten) e8
  have q9 := digitChar_inj (Nat.mod_lt _ hten) (Nat.mod_lt _ hten) e9
  have q10 := digitChar_inj (Nat.mod_lt _ hten) (Nat.mod_lt _ hten) e10
  have q11 := digitChar_inj (Nat.mod_lt _ hten) (Nat.mod_lt _ hten) e11
  have q12 := digitChar_inj (Nat.mod_lt _ hten) (Nat.mod_lt _ hten) e12
  have q13 := digitChar_inj (Nat.mod_lt _ hten) (Nat.mod_lt _ hten) e13
  have q14 := digitChar_inj (Nat.mod_lt _ hten) (Nat.mod_lt _ hten) e14
  have q15 := digitChar_inj (Nat.mod_lt _ hten) (Nat.mod_lt _ hten) e15
  have q16 := digitChar_inj (Nat.mod_lt _ hten) (Nat.mod_lt _ hten) e16
  have q17 := digitChar_inj (Nat.mod_lt _ hten) (Nat.mod_lt _ hten) e17
  ext
  · omega
  · omega
  · omega
  · omega
  · omega
  · omega
  · omega

/-- Equal run names for the same backbone and flag force equal
timestamp renderings. -/
theorem get_run_name_time_inj (b : String) (f : Bool) {t1 t2 : DateTime}
    (h : get_run_name b f t1 = get_run_name b f t2) :
    t1.isoformat = t2.isoformat := by
  have hd := congrArg String.data h
  simp only [get_run_name, String.data_append, List.append_assoc] at hd
  exact String.ext
    (List.append_cancel_left (List.append_cancel_left
      (List.append_cancel_left (List.append_cancel_left hd))))

/-! ## Claims -/

/-- C1 counterexample: for `backbone = "a/b/c"` (two separators) the run
name's backbone segment is `"b/c"` — the slice after the FIRST `'/'` —
while the substring after the last `'/'` is `"c"`: the claim fails. -/
theorem get_run_name_last_slash_cex :
    backbone_name "a/b/c" = "b/c" ∧
    afterLastSlash "a/b/c" = "c" ∧
    get_run_name "a/b/c" false ⟨2024, 1, 2, 3, 4, 5, 6⟩ =
      "b/c" ++ "_binary=" ++ "False" ++ "_" ++
        DateTime.isoformat ⟨2024, 1, 2, 3, 4, 5, 6⟩ ∧
    ("b/c" : String) ≠ "c" := by
  refine ⟨rfl, rfl, rfl, ?_⟩
  decide

/-- C1 (amended): for every backbone containing a `'/'`, the backbone
segment of the run name equals the substring after the FIRST `'/'`. -/
theorem get_run_name_backbone_segment (backbone : String) (f : Bool)
    (now : DateTime) (h : '/' ∈ backbone.data) :
    get_run_name backbone f now =
      afterFirstSlash backbone ++ "_binary=" ++ pyStr f ++ "_" ++ now.isoformat := by
  obtain ⟨i, hi⟩ := strFindChar_isSome h
  have hbn : backbone_name backbone = afterFirstSlash backbone := by
    unfold backbone_name pyFind afterFirstSlash
    rw [hi]
    have htn : ((i : Int) + 1).toNat = i + 1 := by omega
    rw [htn, strFindChar_drop hi]
  unfold get_run_name
  rw [hbn]

/-- C1 witness: the amended statement at `backbone = "a/b/c"`. -/
theorem get_run_name_backbone_segment_witness :
    '/' ∈ ("a/b/c" : String).data ∧
    get_run_name "a/b/c" true ⟨2024, 1, 2, 3, 4, 5, 6⟩ =
      afterFirstSlash "a/b/c" ++ "_binary=" ++ pyStr true ++ "_" ++
        DateTime.isoformat ⟨2024, 1, 2, 3, 4, 5, 6⟩ :=
  ⟨by decide,
   get_run_name_backbone_segment "a/b/c" true ⟨2024, 1, 2, 3, 4, 5, 6⟩ (by decide)⟩

/-- C10: when the backbone contains no `'/'`, `find` returns `-1`, the
slice starts at index `0`, and the backbone segment of the run name is
the whole backbone string. -/
theorem get_run_name_no_slash (backbone : String) (f : Bool) (now : DateTime)
    (h : '/' ∉ backbone.data) :
    get_run_name backbone f now =
      backbone ++ "_binary=" ++ pyStr f ++ "_" ++ now.isoformat := by
  have hbn : backbone_name backbone = backbone := by
    unfold backbone_name pyFind
    rw [strFindChar_eq_none h]
    exact string_mk_data backbone
  unfold get_run_name
  rw [hbn]

/-- C10 witness: the statement at `backbone = "nopath"`. -/
theorem get_run_name_no_slash_witness :
    '/' ∉ ("nopath" : String).data ∧
    get_run_name "nopath" false ⟨2024, 1, 2, 3, 4, 5, 6⟩ =
      "nopath" ++ "_binary=" ++ pyStr false ++ "_" ++
        DateTime.isoformat ⟨2024, 1, 2, 3, 4, 5, 6⟩ :=
  ⟨by decide,
   get_run_name_no_slash "nopath" false ⟨2024, 1, 2, 3, 4, 5, 6⟩ (by decide)⟩

/-- C3: the run name always contains a `binary=` segment whose text is
the Python string form of the flag: `"True"` when the flag is true,
`"False"` when it is false. -/
theorem get_run_name_binary_segment (backbone : String) (f : Bool)
    (now : DateTime) :
    ∃ pre post, get_run_name backbone f now =
      pre ++ ("binary=" ++ (if f then "True" else "False")) ++ post := by
  refine ⟨backbone_name backbone ++ "_", "_" ++ now.isoformat, ?_⟩
  apply String.ext
  cases f <;>
    simp [get_run_name, pyStr, String.data_append, List.append_assoc]

/-- C2: for a fixed backbone and flag, runs whose (valid) wall-clock
instants differ at millisecond resolution get distinct run names. -/
theorem get_run_name_distinct_times (backbone : String) (f : Bool)
    {t1 t2 : DateTime} (h1 : t1.Valid) (h2 : t2.Valid) (hne : t1 ≠ t2) :
    get_run_name backbone f t1 ≠ get_run_name backbone f t2 :=
  fun h => hne (isoformat_inj h1 h2 (get_run_name_time_inj backbone f h))

/-- C2 witness: two instants one millisecond apart give distinct run
names. -/
theorem get_run_name_distinct_times_witness :
    DateTime.Valid ⟨2024, 1, 2, 3, 4, 5, 6⟩ ∧
    DateTime.Valid ⟨2024, 1, 2, 3, 4, 5, 7⟩ ∧
    (⟨2024, 1, 2, 3, 4, 5, 6⟩ : DateTime) ≠ ⟨2024, 1, 2, 3, 4, 5, 7⟩ ∧
    get_run_name "hf/vit" true ⟨2024, 1, 2, 3, 4, 5, 6⟩ ≠
      get_run_name "hf/vit" true ⟨2024, 1, 2, 3, 4, 5, 7⟩ :=
  ⟨by decide, by decide, by decide,
   get_run_name_distinct_times "hf/vit" true (by decide) (by decide) (by decide)⟩

/-- Shared sample environment used by the concrete-instance witnesses. -/
def sampleEnv : TrainEnv where
  cuda_available := true
  cpu_count := 8
  fs := [["models"]]
  histoDataset := fun dir b =>
    { dir := dir, reduce_to_binary := b, n_classes := if b then 2 else 9 }
  now := ⟨2024, 1, 2, 3, 4, 5, 6⟩
  validate_report := "accuracy 0.9"
  validate_binarized_report := "accuracy 0.95"

/-- C4: `report.txt` holds exactly the `validate` report when `binary`
is true, and additionally the binarized section exactly when `binary`
is false; the file content equals the bare report iff the run was
binary. -/
theorem trainRun_report (env : TrainEnv) (b td vd sd : String) (bs : Nat)
    (bin : Bool) :
    (bin = true →
      (trainRun env b td vd sd bs bin).report_txt = env.validate_report) ∧
    (bin = false →
      (trainRun env b td vd sd bs bin).report_txt =
        env.validate_report ++ "\n\n\n\n\n" ++ "Binarized:" ++
          env.validate_binarized_report) ∧
    ((trainRun env b td vd sd bs bin).report_txt = env.validate_report ↔
      bin = true) := by
  cases bin with
  | true => exact ⟨fun _ => rfl, fun h => absurd h (by simp), iff_of_true rfl rfl⟩
  | false =>
    refine ⟨fun h => absurd h (by simp), fun _ => rfl, ?_⟩
    simp only [Bool.false_eq_true, iff_false]
    intro h
    have hrt : (trainRun env b td vd sd bs false).report_txt =
        env.validate_report ++ "\n\n\n\n\n" ++ "Binarized:" ++
          env.validate_binarized_report := rfl
    rw [hrt] at h
    have hl := congrArg String.length h
    simp only [String.length_append] at hl
    have h5 : ("\n\n\n\n\n" : String).length = 5 := rfl
    have h10 : ("Binarized:" : String).length = 10 := rfl
    rw [h5, h10] at hl
    omega

/-- C4 witness: the statement at the sample environment, for a
non-binary run. -/
theorem trainRun_report_witness :
    (false = true →
      (trainRun sampleEnv "a/b" "t" "v" "models/" 64 false).report_txt =
        sampleEnv.validate_report) ∧
    (false = false →
      (trainRun sampleEnv "a/b" "t" "v" "models/" 64 false).report_txt =
        sampleEnv.validate_report ++ "\n\n\n\n\n" ++ "Binarized:" ++
          sampleEnv.validate_binarized_report) ∧
    ((trainRun sampleEnv "a/b" "t" "v" "models/" 64 false).report_txt =
        sampleEnv.validate_report ↔ false = true) :=
  trainRun_report sampleEnv "a/b" "t" "v" "models/" 64 false

/-- C5: the training loader shuffles and drops a trailing partial
batch, the validation loader does neither, and both use one worker per
processor core (`os.cpu_count()`) and the given batch size. -/
theorem trainRun_dataloaders (env : TrainEnv) (b td vd sd : String) (bs : Nat)
    (bin : Bool) :
    (trainRun env b td vd sd bs bin).train_dl.shuffle = true ∧
    (trainRun env b td vd sd bs bin).train_dl.drop_last = true ∧
    (trainRun env b td vd sd bs bin).valid_dl.shuffle = false ∧
    (trainRun env b td vd sd bs bin).valid_dl.drop_last = false ∧
    (trainRun env b td vd sd bs bin).train_dl.num_workers = env.cpu_count ∧
    (trainRun env b td vd sd bs bin).valid_dl.num_workers = env.cpu_count ∧
    (trainRun env b td vd sd bs bin).train_dl.batch_size = bs ∧
    (trainRun env b td vd sd bs bin).valid_dl.batch_size = bs :=
  ⟨rfl, rfl, rfl, rfl, rfl, rfl, rfl, rfl⟩

/-- C6: the fit call is a one-cycle schedule over exactly 4 epochs at
peak learning rate `1e-4`, with early stopping on `valid_loss`
(`min_delta = 0.01`, `patience = 4`) and a per-epoch CSV logger. -/
theorem trainRun_fit (env : TrainEnv) (b td vd sd : String) (bs : Nat)
    (bin : Bool) :
    (trainRun env b td vd sd bs bin).fit.n_epoch = 4 ∧
    (trainRun env b td vd sd bs bin).fit.lr_max = 1 / 10000 ∧
    (trainRun env b td vd sd bs bin).fit.cbs =
      [Callback.earlyStopping
         { monitor := "valid_loss", min_delta := 1 / 100, patience := 4 },
       Callback.csvLogger] :=
  ⟨rfl, rfl, rfl⟩

/-- C7: the device is `"cuda"` exactly when an accelerator is
available and `"cpu"` otherwise, and `"high"` float32 matmul precision
is set if and only if an accelerator is present. -/
theorem trainRun_device (env : TrainEnv) (b td vd sd : String) (bs : Nat)
    (bin : Bool) :
    ((trainRun env b td vd sd bs bin).device = "cuda" ↔
      env.cuda_available = true) ∧
    ((trainRun env b td vd sd bs bin).device = "cpu" ↔
      env.cuda_available = false) ∧
    ((trainRun env b td vd sd bs bin).matmul_float32_mode = some "high" ↔
      env.cuda_available = true) ∧
    ((trainRun env b td vd sd bs bin).matmul_float32_mode = none ↔
      env.cuda_available = false) := by
  have hdev : (trainRun env b td vd sd bs bin).device =
      if env.cuda_available then "cuda" else "cpu" := rfl
  have hmm : (trainRun env b td vd sd bs bin).matmul_float32_mode =
      if env.cuda_available then some "high" else none := rfl
  rw [hdev, hmm]
  cases h : env.cuda_available <;> simp

/-- C7 witness: the statement at the sample environment (accelerator
available). -/
theorem trainRun_device_witness :
    ((trainRun sampleEnv "a/b" "t" "v" "models/" 64 true).device = "cuda" ↔
      sampleEnv.cuda_available = true) ∧
    ((trainRun sampleEnv "a/b" "t" "v" "models/" 64 true).device = "cpu" ↔
      sampleEnv.cuda_available = false) ∧
    ((trainRun sampleEnv "a/b" "t" "v" "models/" 64 true).matmul_float32_mode =
        some "high" ↔ sampleEnv.cuda_available = true) ∧
    ((trainRun sampleEnv "a/b" "t" "v" "models/" 64 true).matmul_float32_mode =
        none ↔ sampleEnv.cuda_available = false) :=
  trainRun_device sampleEnv "a/b" "t" "v" "models/" 64 true

/-- C8: the class count handed to `load_model` — which sizes the
classification head — is exactly the training dataset's reported
`n_classes`, and the training dataset is the one built from
`train_dir` with `reduce_to_binary = binary`; the run record is
immutable, so the equality persists through the run. -/
theorem trainRun_num_classes (env : TrainEnv) (b td vd sd : String) (bs : Nat)
    (bin : Bool) :
    (trainRun env b td vd sd bs bin).model_num_classes =
      (trainRun env b td vd sd bs bin).train_ds.n_classes ∧
    (trainRun env b td vd sd bs bin).train_ds = env.histoDataset td bin :=
  ⟨rfl, rfl⟩

/-- Every prefix of the requested path is present after
`mkdir(parents=True, exist_ok=True)`. -/
theorem mkdir_parents_mem (fs : FS) (p : List String) :
    ∀ q ∈ p.inits, q ∈ mkdir_parents fs p := by
  intro q hq
  by_cases hf : q ∈ fs
  · exact List.mem_append.mpr (Or.inl hf)
  · exact List.mem_append.mpr (Or.inr (List.mem_filter.mpr ⟨hq, by simpa using hf⟩))

/-- `mkdir(parents=True, exist_ok=True)` leaves the tree unchanged when
the directory and its ancestors already exist. -/
theorem mkdir_parents_of_mem (fs : FS) (p : List String)
    (h : ∀ q ∈ p.inits, q ∈ fs) : mkdir_parents fs p = fs := by
  have hnil : p.inits.filter (fun q => decide (q ∉ fs)) = [] :=
    List.filter_eq_nil_iff.mpr (fun a ha => by simpa using h a ha)
  unfold mkdir_parents
  rw [hnil, List.append_nil]

/-- C9: creating the run's save directory is idempotent over the
filesystem: running it twice equals running it once, it is the identity
when the directory tree already exists, and afterwards the directory
and all its ancestors exist. -/
theorem mkdir_parents_spec (fs : FS) (p : List String) :
    mkdir_parents (mkdir_parents fs p) p = mkdir_parents fs p ∧
    ((∀ q ∈ p.inits, q ∈ fs) → mkdir_parents fs p = fs) ∧
    (∀ q ∈ p.inits, q ∈ mkdir_parents fs p) :=
  ⟨mkdir_parents_of_mem (mkdir_parents fs p) p (mkdir_parents_mem fs p),
   fun h => mkdir_parents_of_mem fs p h,
   mkdir_parents_mem fs p⟩

/-- C9 witness: the statement at a concrete filesystem and save
path. -/
theorem mkdir_parents_spec_witness :
    mkdir_parents (mkdir_parents [["models"]] ["models", "run1"])
        ["models", "run1"] =
      mkdir_parents [["models"]] ["models", "run1"] ∧
    ((∀ q ∈ (["models", "run1"] : List String).inits,
        q ∈ ([["models"]] : FS)) →
      mkdir_parents [["models"]] ["models", "run1"] = [["models"]]) ∧
    (∀ q ∈ (["models", "run1"] : List String).inits,
      q ∈ mkdir_parents [["models"]] ["models", "run1"]) :=
  mkdir_parents_spec [["models"]] ["models", "run1"]

end TissueMAP
